import Mathlib

/-!
Shallow embedding of the statistics and caching code of the gamelytics
frontend (sync-ui).  Numbers that JavaScript holds as IEEE doubles are
modelled as rationals (ℚ); all the arithmetic involved is exact on the
inputs considered, and a JavaScript division whose divisor is zero (which
yields the non-finite values Infinity/NaN rather than throwing) is modelled
by `Option ℚ` where it matters.
-/

namespace Gamelytics

/-- Embedding of the `PlayerMatchPerformance` record
(sync-ui/src/types/match.ts).  Only the fields read by the functions under
study are carried; `kdaRatio` embeds the source field `kda_ratio`. -/
structure PlayerMatchPerformance where
  kills : ℕ
  deaths : ℕ
  assists : ℕ
  kdaRatio : ℚ
  cs : ℚ
  win : Bool
  gameDurationMinutes : ℚ
deriving DecidableEq

/-- Result record of `calculateStats` (MatchHistory.tsx lines 60-73). -/
structure CalculatedStats where
  winRate : ℚ
  avgKDA : ℚ
  avgCS : ℚ
  totalGames : ℕ
deriving DecidableEq

/-- Embedding of `calculateStats` (MatchHistory.tsx lines 60-73).  The
source guard `!matches || matches.length === 0` collapses to the length
test, a Lean list never being null; `Array.prototype.reduce` with initial
accumulator `0` is `List.foldl`; the parameter `ms` embeds the source
parameter named like the match keyword. -/
def calculateStats (ms : List PlayerMatchPerformance) : CalculatedStats :=
  if ms.length = 0 then
    { winRate := 0, avgKDA := 0, avgCS := 0, totalGames := 0 }
  else
    let wins := (ms.filter (fun m => m.win)).length
    let totalGames := ms.length
    let winRate := ((wins : ℚ) / (totalGames : ℚ)) * 100
    let avgKDA := (ms.foldl (fun sum m => sum + m.kdaRatio) 0) / (totalGames : ℚ)
    let avgCS := (ms.foldl (fun sum m => sum + m.cs) 0) / (totalGames : ℚ)
    { winRate := winRate, avgKDA := avgKDA, avgCS := avgCS, totalGames := totalGames }

/-- Embedding of the `kda` value computed inside `formatKDA`
(RecentMatches.tsx lines 80-83):
`deaths > 0 ? (kills + assists) / deaths : kills + assists`. -/
def formatKDAValue (kills deaths assists : ℕ) : ℚ :=
  if deaths > 0 then ((kills : ℚ) + (assists : ℚ)) / (deaths : ℚ)
  else (kills : ℚ) + (assists : ℚ)

/-- Embedding of the per-game KDA displayed by the `RecentMatches` variant
(src/unnamed/part_006 line 129):
`(match.kills + match.assists) / Math.max(match.deaths, 1)`. -/
def recentMatchesKdaShown (kills deaths assists : ℕ) : ℚ :=
  ((kills : ℚ) + (assists : ℚ)) / max (deaths : ℚ) 1

/-- JavaScript division as far as finiteness goes: dividing by zero does
not throw but produces the non-finite Infinity or NaN, modelled here by
`none`; a nonzero divisor produces the exact quotient. -/
def jsDiv (a b : ℚ) : Option ℚ :=
  if b = 0 then none else some (a / b)

/-- Embedding of the CS-per-minute value rendered by the match card in
MatchHistory.tsx line 1174: `match.cs / match.game_duration_minutes`,
with no guard on the divisor in the source. -/
def matchCardCsPerMin (m : PlayerMatchPerformance) : Option ℚ :=
  jsDiv m.cs m.gameDurationMinutes

/-- Champion payload `Record<string, any>` (the value stored in
`championDataCache`), modelled as an association list with opaque
string-rendered values. -/
def ChampionData : Type := List (String × String)

instance : DecidableEq ChampionData := by
  unfold ChampionData
  infer_instance

/-- Module-level mutable cache cells of apiStore.ts lines 222-226:
`championDataCache` (null or a payload) and `championDataCacheTime`
(milliseconds, 0 initially). -/
structure ChampionCacheState where
  championDataCache : Option ChampionData
  championDataCacheTime : ℤ
deriving DecidableEq

/-- Cache TTL of apiStore.ts line 226: `24 * 60 * 60 * 1000` ms. -/
def CACHE_DURATION : ℤ := 24 * 60 * 60 * 1000

/-- Outcome of the upstream interaction inside the `try` block of
`getChampionData`: `ok payload` carries the value `data.data || \x7b\x7d`
extracted from a successful fetch; `fail` is any error thrown by the
fetch or the JSON parse (caught by the `catch`). -/
inductive FetchResult where
  | ok (payload : ChampionData)
  | fail
deriving DecidableEq

/-- Result of one `getChampionData` call: the returned value, the cache
state after the call, and whether the `try` block (the upstream fetch
path) ran at all. -/
structure ChampionCallResult where
  value : ChampionData
  state : ChampionCacheState
  fetched : Bool
deriving DecidableEq

/-- Fetch path of `getChampionData` (apiStore.ts lines 258-271): on
success store the payload and stamp `now`; on failure change nothing and
return `championDataCache || \x7b\x7d`. -/
def getChampionDataFetch (st : ChampionCacheState) (now : ℤ)
    (upstream : FetchResult) : ChampionCallResult :=
  match upstream with
  | FetchResult.ok payload =>
      { value := payload
        state := { championDataCache := some payload, championDataCacheTime := now }
        fetched := true }
  | FetchResult.fail =>
      { value := st.championDataCache.getD []
        state := st
        fetched := true }

/-- Embedding of `getChampionData` (apiStore.ts lines 251-272).  The
guard `championDataCache && (now - championDataCacheTime) < CACHE_DURATION`
returns the cached value without touching the upstream; otherwise the
fetch path runs with the given upstream outcome. -/
def getChampionData (st : ChampionCacheState) (now : ℤ)
    (upstream : FetchResult) : ChampionCallResult :=
  match st.championDataCache with
  | some cached =>
      if now - st.championDataCacheTime < CACHE_DURATION then
        { value := cached, state := st, fetched := false }
      else
        getChampionDataFetch st now upstream
  | none => getChampionDataFetch st now upstream

/-- Per-role statistics record consumed by `PrimaryRole`
(PrimaryRole.tsx lines 9-19); `totalGames` embeds `total_games`. -/
structure RolePerformance where
  role : String
  totalGames : ℕ
  wins : ℕ
  losses : ℕ
  winRate : ℚ
deriving DecidableEq

/-- Reducer step of PrimaryRole.tsx lines 65-67:
`(current.total_games > prev.total_games) ? current : prev`. -/
def primaryRoleStep (prev current : RolePerformance) : RolePerformance :=
  if current.totalGames > prev.totalGames then current else prev

/-- Embedding of the `roleData.reduce` call of PrimaryRole.tsx lines
64-67 on a non-empty array, written head/tail: JavaScript `reduce`
without an initial value folds the tail with the head as accumulator. -/
def primaryRole (h : RolePerformance) (t : List RolePerformance) : RolePerformance :=
  t.foldl primaryRoleStep h

/-- Ambient mutable state visible to the MatchHistory component around
`calculateStats`: its React state cells (MatchHistory.tsx lines 17-19)
and the clock.  The body of `calculateStats` references none of these —
it reads only its `matches` parameter — so its effectful embedding
`calculateStatsCall` below leaves this state untouched. -/
structure UiState where
  now : ℤ
  limit : ℕ
  fetchingNew : Bool
  selectedMatchId : Option String
deriving DecidableEq

/-- State-passing embedding of one call to `calculateStats`: the source
function is a closure over no mutable variable and performs no I/O, so
the call returns the ambient state unchanged and a value computed from
the records alone. -/
def calculateStatsCall (w : UiState) (ms : List PlayerMatchPerformance) :
    CalculatedStats × UiState :=
  (calculateStats ms, w)

/-- Whitespace for the purposes of `String.prototype.trim`; the common
ASCII whitespace characters suffice for the inputs under study. -/
def isJsSpace (c : Char) : Bool :=
  c = ' ' || c = '\t' || c = '\n' || c = '\r'

/-- Embedding of `String.prototype.trim` on the character list. -/
def trimChars (cs : List Char) : List Char :=
  ((cs.dropWhile isJsSpace).reverse.dropWhile isJsSpace).reverse

/-- Embedding of `String.prototype.trim`. -/
def jsTrim (s : String) : String :=
  String.mk (trimChars s.data)

/-- Greedy match of the regular expression `(.+)#(.+)` against a suffix
of the input: splits at the last `#` that leaves a non-empty remainder
after it (backtracking of the greedy first group), without the
leading-group non-emptiness condition, which the caller checks.  Returns
the characters before and after that `#`. -/
def matchHashSplit : List Char → Option (List Char × List Char)
  | [] => none
  | c :: rest =>
      match matchHashSplit rest with
      | some (b, a) => some (c :: b, a)
      | none => if c = '#' && !rest.isEmpty then some ([], rest) else none

/-- Parsed Riot ID record returned by `parseRiotId`. -/
structure RiotId where
  gameName : String
  tagLine : String
deriving DecidableEq

/-- Embedding of `parseRiotId` (apiStore.ts lines 113-125).  The regex
`(.+)#(.+)$` anchored both sides matches exactly when `matchHashSplit`
yields a split with a non-empty part before the `#`; both groups are
then non-empty strings, so the source condition
`match && match[1] && match[2]` holds and the trimmed groups are
returned.  When the regex fails the source returns
`\x7bgameName: input, tagLine: ""\x7d` — it never returns null, hence the
`Option` result is always `some`. -/
def parseRiotId (input : String) : Option RiotId :=
  match matchHashSplit input.data with
  | some (b, a) =>
      if b.isEmpty then some { gameName := input, tagLine := "" }
      else some { gameName := jsTrim (String.mk b), tagLine := jsTrim (String.mk a) }
  | none => some { gameName := input, tagLine := "" }

/-- Outcome of the input-validation phase of `connectAccount` in single
input mode (apiStore.ts lines 30-43), before any network call. -/
inductive ConnectOutcome where
  | errEmptyInput
  | errInvalidFormat
  | lookup (gameName tagLine : String)
deriving DecidableEq

/-- Embedding of the single-mode validation of `connectAccount`
(apiStore.ts lines 30-43): an all-whitespace Riot ID is rejected first;
then a null `parseRiotId` result would produce the
"Invalid Riot ID format" error; otherwise the parsed pair is passed on
to the lookup request. -/
def connectAccountSingle (riotId : String) : ConnectOutcome :=
  if jsTrim riotId = "" then ConnectOutcome.errEmptyInput
  else
    match parseRiotId (jsTrim riotId) with
    | none => ConnectOutcome.errInvalidFormat
    | some p => ConnectOutcome.lookup p.gameName p.tagLine

/-- First Scenario C record: win, 5 kills / 1 death / 3 assists, per-game
KDA 8.0. -/
def scenarioC1 : PlayerMatchPerformance :=
  { kills := 5, deaths := 1, assists := 3, kdaRatio := formatKDAValue 5 1 3,
    cs := 0, win := true, gameDurationMinutes := 30 }

/-- Second Scenario C record: win, 2 kills / 0 deaths / 4 assists,
per-game KDA 6.0 by the deaths-zero branch. -/
def scenarioC2 : PlayerMatchPerformance :=
  { kills := 2, deaths := 0, assists := 4, kdaRatio := formatKDAValue 2 0 4,
    cs := 0, win := true, gameDurationMinutes := 30 }

/-- Third Scenario C record: loss, 1 kill / 4 deaths / 2 assists,
per-game KDA 0.75. -/
def scenarioC3 : PlayerMatchPerformance :=
  { kills := 1, deaths := 4, assists := 2, kdaRatio := formatKDAValue 1 4 2,
    cs := 0, win := false, gameDurationMinutes := 30 }

/-- C1: on the empty record list `calculateStats` takes its guard branch
and returns the zero-valued result \x7bwinRate: 0, avgKDA: 0, avgCS: 0,
totalGames: 0\x7d; the embedding is a total function, so no exception is
raised. -/
theorem calculateStats_empty_zero :
    calculateStats [] =
      { winRate := 0, avgKDA := 0, avgCS := 0, totalGames := 0 } := rfl

/-- C2: for non-negative (natural) kills, deaths and assists, the
per-game KDA value equals (kills+assists)/deaths when deaths > 0 and
kills+assists when deaths = 0, is always non-negative, and the displayed
value of the RecentMatches variant agrees with it; the embedding is a
total function, so no division error is raised at deaths = 0. -/
theorem formatKDAValue_spec (k d a : ℕ) :
    formatKDAValue k (d + 1) a = ((k : ℚ) + (a : ℚ)) / ((d : ℚ) + 1) ∧
    formatKDAValue k 0 a = (k : ℚ) + (a : ℚ) ∧
    0 ≤ formatKDAValue k d a ∧
    recentMatchesKdaShown k d a = formatKDAValue k d a := by
  refine ⟨?_, ?_, ?_, ?_⟩
  · simp only [formatKDAValue, Nat.succ_pos, if_pos]
    push_cast
    ring
  · simp [formatKDAValue]
  · unfold formatKDAValue
    split
    · positivity
    · positivity
  · cases d with
    | zero => simp [recentMatchesKdaShown, formatKDAValue]
    | succ e =>
        have h1 : (1 : ℚ) ≤ ((e + 1 : ℕ) : ℚ) := by
          exact_mod_cast Nat.succ_le_succ (Nat.zero_le e)
        simp [recentMatchesKdaShown, formatKDAValue, max_eq_left h1]

/-- Closed instance of `formatKDAValue_spec` at kills 5, deaths 2,
assists 3: the per-game KDA is 4, non-negative, and shown as such. -/
theorem formatKDAValue_spec_witness :
    formatKDAValue 5 (1 + 1) 3 = ((5 : ℚ) + (3 : ℚ)) / ((1 : ℚ) + 1) ∧
    formatKDAValue 5 0 3 = (5 : ℚ) + (3 : ℚ) ∧
    0 ≤ formatKDAValue 5 1 3 ∧
    recentMatchesKdaShown 5 1 3 = formatKDAValue 5 1 3 :=
  formatKDAValue_spec 5 1 3

/-- C3: the match card of MatchHistory.tsx divides creep score by game
duration with no guard, so at `game_duration_minutes = 0` the division
by zero does occur and the rendered CS/min value is non-finite
(Infinity/NaN, modelled by `none`) — the source lacks the guard the
specification requires. -/
theorem matchCardCsPerMin_zero_duration_unguarded :
    matchCardCsPerMin
      { kills := 2, deaths := 3, assists := 4, kdaRatio := 2,
        cs := 50, win := true, gameDurationMinutes := 0 } = none := rfl

/-- C7: the win rate computed by `calculateStats` always lies in
[0, 100]: it is 0 on the empty list, and wins/totalGames ≤ 1 otherwise. -/
theorem calculateStats_winRate_range (ms : List PlayerMatchPerformance) :
    0 ≤ (calculateStats ms).winRate ∧ (calculateStats ms).winRate ≤ 100 := by
  unfold calculateStats
  by_cases h : ms.length = 0
  · simp [h]
  · rw [if_neg h]
    have hn : 0 < (ms.length : ℚ) := by
      exact_mod_cast Nat.pos_of_ne_zero h
    have hw : ((ms.filter (fun m => m.win)).length : ℚ) ≤ (ms.length : ℚ) := by
      exact_mod_cast List.length_filter_le _ ms
    constructor
    · positivity
    · have hdiv : ((ms.filter (fun m => m.win)).length : ℚ) / (ms.length : ℚ) ≤ 1 :=
        (div_le_one hn).mpr hw
      calc ((ms.filter (fun m => m.win)).length : ℚ) / (ms.length : ℚ) * 100
          ≤ 1 * 100 := by
            exact mul_le_mul_of_nonneg_right hdiv (by norm_num)
        _ = 100 := by norm_num

/-- Closed instance of `calculateStats_winRate_range` on the Scenario C
records. -/
theorem calculateStats_winRate_range_witness :
    0 ≤ (calculateStats [scenarioC1, scenarioC2, scenarioC3]).winRate ∧
    (calculateStats [scenarioC1, scenarioC2, scenarioC3]).winRate ≤ 100 :=
  calculateStats_winRate_range [scenarioC1, scenarioC2, scenarioC3]

/-- C8: on the Scenario C records the per-game KDA values are 8, 6 (by
the deaths-zero branch) and 0.75; `calculateStats` yields the exact win
rate 200/3 (two thirds as a percentage, 66.7 to one decimal) and the
exact average KDA (8 + 6 + 0.75)/3 (≈ 4.92 to two decimals). -/
theorem scenarioC_stats :
    formatKDAValue 5 1 3 = 8 ∧
    formatKDAValue 2 0 4 = 6 ∧
    formatKDAValue 1 4 2 = 3 / 4 ∧
    (calculateStats [scenarioC1, scenarioC2, scenarioC3]).winRate = 200 / 3 ∧
    round ((calculateStats [scenarioC1, scenarioC2, scenarioC3]).winRate * 10) = 667 ∧
    (calculateStats [scenarioC1, scenarioC2, scenarioC3]).avgKDA = (8 + 6 + 3 / 4) / 3 ∧
    round ((calculateStats [scenarioC1, scenarioC2, scenarioC3]).avgKDA * 100) = 492 := by
  have hwin : (calculateStats [scenarioC1, scenarioC2, scenarioC3]).winRate = 200 / 3 := by
    norm_num [calculateStats, scenarioC1, scenarioC2, scenarioC3, formatKDAValue, List.filter]
  have hkda : (calculateStats [scenarioC1, scenarioC2, scenarioC3]).avgKDA = (8 + 6 + 3 / 4) / 3 := by
    norm_num [calculateStats, scenarioC1, scenarioC2, scenarioC3, formatKDAValue, List.foldl]
  refine ⟨by norm_num [formatKDAValue], by norm_num [formatKDAValue],
    by norm_num [formatKDAValue], hwin, ?_, hkda, ?_⟩
  · rw [hwin, round_eq]
    norm_num
  · rw [hkda, round_eq]
    norm_num

/-- C9: `calculateStats` reads none of the ambient mutable state, so two
calls on the same record list — from any two ambient states, in
particular before and after the first call — return equal results, and
a call leaves the ambient state unchanged. -/
theorem calculateStats_deterministic (w w' : UiState)
    (ms : List PlayerMatchPerformance) :
    (calculateStatsCall w ms).1 = (calculateStatsCall w' ms).1 ∧
    (calculateStatsCall w ms).2 = w := ⟨rfl, rfl⟩

/-- Closed instance of `calculateStats_deterministic` on the Scenario C
records and two distinct ambient states. -/
theorem calculateStats_deterministic_witness :
    (calculateStatsCall
        { now := 0, limit := 20, fetchingNew := false, selectedMatchId := none }
        [scenarioC1, scenarioC2, scenarioC3]).1 =
      (calculateStatsCall
        { now := 5000, limit := 40, fetchingNew := true, selectedMatchId := some "m1" }
        [scenarioC1, scenarioC2, scenarioC3]).1 ∧
    (calculateStatsCall
        { now := 0, limit := 20, fetchingNew := false, selectedMatchId := none }
        [scenarioC1, scenarioC2, scenarioC3]).2 =
      { now := 0, limit := 20, fetchingNew := false, selectedMatchId := none } :=
  calculateStats_deterministic _ _ _

/-- C4: when the champion cache holds an entry younger than
CACHE_DURATION, `getChampionData` returns exactly that entry, leaves the
cache cells untouched, and never enters the fetch path, whatever the
upstream would have answered. -/
theorem getChampionData_cache_hit (st : ChampionCacheState) (now : ℤ)
    (upstream : FetchResult) (cached : ChampionData)
    (hc : st.championDataCache = some cached)
    (hfresh : now - st.championDataCacheTime < CACHE_DURATION) :
    getChampionData st now upstream =
      { value := cached, state := st, fetched := false } := by
  unfold getChampionData
  rw [hc]
  simp [hfresh]

/-- Closed instance of `getChampionData_cache_hit`: a one-second-old
entry is served as is, with no fetch, even though the upstream would
fail. -/
theorem getChampionData_cache_hit_witness :
    ({ championDataCache := some [("Aatrox", "266")], championDataCacheTime := 0 } :
        ChampionCacheState).championDataCache = some [("Aatrox", "266")] ∧
    (1000 : ℤ) - ({ championDataCache := some [("Aatrox", "266")], championDataCacheTime := 0 } :
        ChampionCacheState).championDataCacheTime < CACHE_DURATION ∧
    getChampionData
        { championDataCache := some [("Aatrox", "266")], championDataCacheTime := 0 }
        1000 FetchResult.fail =
      { value := [("Aatrox", "266")],
        state := { championDataCache := some [("Aatrox", "266")], championDataCacheTime := 0 },
        fetched := false } :=
  ⟨rfl, by norm_num [CACHE_DURATION],
    getChampionData_cache_hit _ 1000 FetchResult.fail _ rfl (by norm_num [CACHE_DURATION])⟩

/-- C5: when no live entry exists (empty or expired cache) and the
upstream fetch fails, `getChampionData` does run the fetch path, yet the
cached value and its timestamp are exactly the ones before the call, and
the returned value is the previously cached payload, or the empty object
when there is none. -/
theorem getChampionData_failure_keeps_cache (st : ChampionCacheState) (now : ℤ)
    (hmiss : st.championDataCache = none ∨
      CACHE_DURATION ≤ now - st.championDataCacheTime) :
    getChampionData st now FetchResult.fail =
      { value := st.championDataCache.getD [], state := st, fetched := true } := by
  rcases hmiss with h | h
  · simp [getChampionData, getChampionDataFetch, h]
  · cases hc : st.championDataCache with
    | none => simp [getChampionData, getChampionDataFetch, hc]
    | some c => simp [getChampionData, getChampionDataFetch, hc, not_lt.mpr h]

/-- Closed instance of `getChampionData_failure_keeps_cache`: an expired
entry survives a failed refresh untouched and is returned to the
caller. -/
theorem getChampionData_failure_keeps_cache_witness :
    (({ championDataCache := some [("Ahri", "103")], championDataCacheTime := 0 } :
        ChampionCacheState).championDataCache = none ∨
      CACHE_DURATION ≤ (90000000 : ℤ) -
        ({ championDataCache := some [("Ahri", "103")], championDataCacheTime := 0 } :
          ChampionCacheState).championDataCacheTime) ∧
    getChampionData
        { championDataCache := some [("Ahri", "103")], championDataCacheTime := 0 }
        90000000 FetchResult.fail =
      { value := [("Ahri", "103")],
        state := { championDataCache := some [("Ahri", "103")], championDataCacheTime := 0 },
        fetched := true } :=
  ⟨Or.inr (by norm_num [CACHE_DURATION]),
    getChampionData_failure_keeps_cache _ 90000000 (Or.inr (by norm_num [CACHE_DURATION]))⟩

/-- Helper: a character list without any hash admits no hash split. -/
lemma matchHashSplit_eq_none_of_no_hash (cs : List Char)
    (h : cs.contains '#' = false) : matchHashSplit cs = none := by
  induction cs with
  | nil => rfl
  | cons c rest ih =>
      rw [List.contains_cons, Bool.or_eq_false_iff] at h
      have hc : ¬c = '#' := by
        intro hceq
        rw [hceq] at h
        simp at h
      rw [matchHashSplit, ih h.2]
      simp [hc]

/-- Helper: `parseRiotId` always produces a value. -/
lemma parseRiotId_eq_some (s : String) : ∃ r, parseRiotId s = some r := by
  unfold parseRiotId
  cases hm : matchHashSplit s.data with
  | none => exact ⟨_, rfl⟩
  | some p =>
      cases p with
      | mk b a =>
          by_cases hb : b.isEmpty
          · refine ⟨{ gameName := s, tagLine := "" }, ?_⟩
            simp [hb]
          · refine ⟨{ gameName := jsTrim (String.mk b), tagLine := jsTrim (String.mk a) }, ?_⟩
            simp [hb]

/-- C10: `parseRiotId` never returns null — an input without a hash
falls to the default branch \x7bgameName: input, tagLine: ""\x7d — so the
"Invalid Riot ID format" branch of `connectAccount`, reached only on a
null parse result, is unreachable. -/
theorem parseRiotId_never_null (s : String) :
    (parseRiotId s).isSome = true ∧
    (s.data.contains '#' = false →
      parseRiotId s = some { gameName := s, tagLine := "" }) ∧
    connectAccountSingle s ≠ ConnectOutcome.errInvalidFormat := by
  refine ⟨?_, ?_, ?_⟩
  · obtain ⟨r, hr⟩ := parseRiotId_eq_some s
    rw [hr]
    rfl
  · intro h
    rw [parseRiotId, matchHashSplit_eq_none_of_no_hash s.data h]
  · unfold connectAccountSingle
    by_cases he : jsTrim s = ""
    · rw [if_pos he]
      intro hcon
      cases hcon
    · rw [if_neg he]
      obtain ⟨r, hr⟩ := parseRiotId_eq_some (jsTrim s)
      rw [hr]
      intro hcon
      cases hcon

/-- Closed instance of `parseRiotId_never_null` at the hash-free input
"abc": the parse succeeds with an empty tag line and the invalid-format
error is not produced. -/
theorem parseRiotId_never_null_witness :
    (String.data "abc").contains '#' = false ∧
    (parseRiotId "abc").isSome = true ∧
    parseRiotId "abc" = some { gameName := "abc", tagLine := "" } ∧
    connectAccountSingle "abc" ≠ ConnectOutcome.errInvalidFormat := by
  have h := parseRiotId_never_null "abc"
  have hnh : (String.data "abc").contains '#' = false := by decide
  exact ⟨hnh, h.1, h.2.1 hnh, h.2.2⟩

/-- Helper: one reducer step, unfolded over a cons cell. -/
lemma primaryRole_cons (h c : RolePerformance) (t : List RolePerformance) :
    primaryRole h (c :: t) = primaryRole (primaryRoleStep h c) t := rfl

/-- Helper: the accumulator never loses games through a step. -/
lemma le_primaryRoleStep_left (prev cur : RolePerformance) :
    prev.totalGames ≤ (primaryRoleStep prev cur).totalGames := by
  unfold primaryRoleStep
  split <;> omega

/-- Helper: the scanned element never beats the step result. -/
lemma le_primaryRoleStep_right (prev cur : RolePerformance) :
    cur.totalGames ≤ (primaryRoleStep prev cur).totalGames := by
  unfold primaryRoleStep
  split <;> omega

/-- Helper: the reduce result has at least as many games as every
element of the array. -/
lemma primaryRole_le (t : List RolePerformance) (h : RolePerformance) :
    ∀ r ∈ h :: t, r.totalGames ≤ (primaryRole h t).totalGames := by
  induction t generalizing h with
  | nil =>
      intro r hr
      rw [List.mem_singleton] at hr
      rw [hr]
      exact Nat.le_refl _
  | cons c t' ih =>
      intro r hr
      rw [primaryRole_cons]
      have hhead := ih (primaryRoleStep h c) (primaryRoleStep h c) (List.mem_cons_self _ _)
      rcases List.mem_cons.mp hr with hrh | hr'
      · rw [hrh]
        exact le_trans (le_primaryRoleStep_left h c) hhead
      · rcases List.mem_cons.mp hr' with hrc | hrt
        · rw [hrc]
          exact le_trans (le_primaryRoleStep_right h c) hhead
        · exact ih (primaryRoleStep h c) r (List.mem_cons_of_mem _ hrt)

/-- Helper: the reduce result is the earliest element of the array
attaining the maximal game count — every element strictly before it in
the array has strictly fewer games. -/
lemma primaryRole_decomp (t : List RolePerformance) (h : RolePerformance) :
    ∃ l1 l2, h :: t = l1 ++ (primaryRole h t) :: l2 ∧
      ∀ r ∈ l1, r.totalGames < (primaryRole h t).totalGames := by
  induction t generalizing h with
  | nil =>
      refine ⟨[], [], rfl, ?_⟩
      intro r hr
      cases hr
  | cons c t' ih =>
      rw [primaryRole_cons]
      by_cases hcg : c.totalGames > h.totalGames
      · have hstep : primaryRoleStep h c = c := by
          simp [primaryRoleStep, hcg]
        rw [hstep]
        obtain ⟨l1, l2, heq, hlt⟩ := ih c
        refine ⟨h :: l1, l2, ?_, ?_⟩
        · rw [List.cons_append, ← heq]
        · intro r hr
          rcases List.mem_cons.mp hr with hrh | hrl
          · rw [hrh]
            exact lt_of_lt_of_le hcg (primaryRole_le t' c c (List.mem_cons_self _ _))
          · exact hlt r hrl
      · have hstep : primaryRoleStep h c = h := by
          simp [primaryRoleStep, hcg]
        rw [hstep]
        obtain ⟨l1, l2, heq, hlt⟩ := ih h
        cases l1 with
        | nil =>
            rw [List.nil_append] at heq
            injection heq with h1 h2
            refine ⟨[], c :: t', ?_, ?_⟩
            · rw [List.nil_append, ← h1]
            · intro r hr
              cases hr
        | cons x l1' =>
            rw [List.cons_append] at heq
            injection heq with h1 h2
            refine ⟨h :: c :: l1', l2, ?_, ?_⟩
            · rw [List.cons_append, List.cons_append, ← h2]
            · intro r hr
              have hhlt : h.totalGames < (primaryRole h t').totalGames := by
                have hx := hlt x (List.mem_cons_self _ _)
                rw [← h1] at hx
                exact hx
              rcases List.mem_cons.mp hr with hrh | hr'
              · rw [hrh]
                exact hhlt
              · rcases List.mem_cons.mp hr' with hrc | hrl
                · rw [hrc]
                  exact lt_of_le_of_lt (by omega) hhlt
                · exact hlt r (List.mem_cons_of_mem _ hrl)

/-- C6: on a non-empty per-role array (head and tail) the reduce of
PrimaryRole.tsx selects an element with maximal total games, and the
array splits around the selected element so that everything encountered
before it has strictly fewer games — on ties the earliest-encountered
role wins. -/
theorem primaryRole_max_earliest (h : RolePerformance) (t : List RolePerformance) :
    (∀ r ∈ h :: t, r.totalGames ≤ (primaryRole h t).totalGames) ∧
    ∃ l1 l2, h :: t = l1 ++ (primaryRole h t) :: l2 ∧
      ∀ r ∈ l1, r.totalGames < (primaryRole h t).totalGames :=
  ⟨primaryRole_le t h, primaryRole_decomp t h⟩

/-- Sample per-role record: top lane, 5 games. -/
def roleTop : RolePerformance :=
  { role := "TOP", totalGames := 5, wins := 3, losses := 2, winRate := 60 }

/-- Sample per-role record: jungle, 7 games, tied with mid. -/
def roleJungle : RolePerformance :=
  { role := "JUNGLE", totalGames := 7, wins := 4, losses := 3, winRate := 57 }

/-- Sample per-role record: mid, 7 games, tied with jungle. -/
def roleMid : RolePerformance :=
  { role := "MIDDLE", totalGames := 7, wins := 3, losses := 4, winRate := 43 }

/-- Closed instance of `primaryRole_max_earliest` on a concrete array
with a tie: jungle and mid both have 7 games and the
earliest-encountered of the two, jungle, is selected. -/
theorem primaryRole_max_earliest_witness :
    primaryRole roleTop [roleJungle, roleMid] = roleJungle ∧
    (∀ r ∈ [roleTop, roleJungle, roleMid],
      r.totalGames ≤ (primaryRole roleTop [roleJungle, roleMid]).totalGames) ∧
    ∃ l1 l2, [roleTop, roleJungle, roleMid] =
        l1 ++ (primaryRole roleTop [roleJungle, roleMid]) :: l2 ∧
      ∀ r ∈ l1, r.totalGames < (primaryRole roleTop [roleJungle, roleMid]).totalGames :=
  ⟨by decide, primaryRole_max_earliest roleTop [roleJungle, roleMid]⟩

end Gamelytics
